import Mathlib

/-!
Shallow embedding of the triage pipeline of `monitor_issues.py` (the
crypto-issue monitor).  Texts are modelled as `String`/`List Char`;
collaborator calls (HTTP fetch/create/comment) are modelled as explicit
oracle parameters; the mutable processed-issue set is explicit state
threaded through the pipeline; the float similarity ratio is modelled
exactly over `ℚ`.
-/

/-- Python `str.lower()`, character-wise.  The keyword vocabulary and the
texts in all concrete instances are ASCII, where `Char.toLower` agrees with
Python's `str.lower`. -/
def lowerStr (s : String) : String := String.mk (s.data.map Char.toLower)

/-- Decides whether the first list is a prefix of the second one. -/
def hasPrefixL : List Char → List Char → Bool
  | [], _ => true
  | _ :: _, [] => false
  | c :: cs, d :: ds => c == d && hasPrefixL cs ds

/-- Python substring test `needle in hay` (first argument is the haystack). -/
def containsSub : List Char → List Char → Bool
  | [], needle => needle.isEmpty
  | hay@(_ :: rest), needle => hasPrefixL needle hay || containsSub rest needle

/-- Python `issue.get('body', '') or ''`: a missing body is treated as the
empty string. -/
def orEmpty : Option String → String
  | none => ""
  | some s => s

/-- A fetched source issue (the fields of the GitHub issue dict that
`monitor_issues.py` reads).  `repository_url` is only populated on the
search path. -/
structure Issue where
  number : Nat
  title : String
  body : Option String
  user : String
  html_url : String
  created_at : String
  repository_url : String := ""
deriving DecidableEq

/-- Lower-cased `f"{title} {body}"` concatenation used by both
`matches_criteria` and `detect_priority`. -/
def issueContent (i : Issue) : String :=
  lowerStr i.title ++ " " ++ lowerStr (orEmpty i.body)

/-- Line 101: `matches_criteria` — true iff any configured keyword is a
case-insensitive substring of the title+body concatenation. -/
def matches_criteria (keywords : List String) (i : Issue) : Bool :=
  keywords.any (fun k => containsSub (issueContent i).data (lowerStr k).data)

/-- Line 119: the keyword list of the `priority-critical` branch (note that
it contains `"urgent"`). -/
def critical_keywords : List String :=
  ["critical", "urgent", "emergency", "security breach", "exploit", "hack",
   "funds at risk", "total loss"]

/-- Line 121: the keyword list of the `priority-urgent` branch. -/
def urgent_keywords : List String :=
  ["urgent", "asap", "immediately", "cant access", "locked out", "lost funds"]

/-- Line 123: the keyword list of the `priority-high` branch. -/
def high_keywords : List String :=
  ["high", "important", "stuck", "frozen", "missing balance"]

/-- Line 125: the keyword list of the `priority-low` branch. -/
def low_keywords : List String :=
  ["minor", "low", "suggestion", "enhancement", "feature request"]

/-- Python `any(word in content for word in ws)`. -/
def hasAnyKeyword (c : String) (ws : List String) : Bool :=
  ws.any (fun w => containsSub c.data w.data)

/-- Lines 113-128: `detect_priority`, an if/elif chain evaluated in fixed
descending order with first match winning and `priority-medium` default. -/
def detect_priority (i : Issue) : String :=
  let c := issueContent i
  if hasAnyKeyword c critical_keywords then "priority-critical"
  else if hasAnyKeyword c urgent_keywords then "priority-urgent"
  else if hasAnyKeyword c high_keywords then "priority-high"
  else if hasAnyKeyword c low_keywords then "priority-low"
  else "priority-medium"

/-- Line 261: `original_body = original_issue.get('body', '') or
'*No description provided*'` — the placeholder replaces a missing or empty
body in the composed issue (and hence in the category text). -/
def originalBodyText (i : Issue) : String :=
  match i.body with
  | none => "*No description provided*"
  | some b => if b = "" then "*No description provided*" else b

/-- Line 307: category keywords for `bug`. -/
def bug_keywords : List String := ["bug", "error", "broken", "crash", "failed"]

/-- Line 309: category keywords for `security`. -/
def security_keywords : List String := ["security", "vulnerability", "exploit", "hack"]

/-- Line 311: category keywords for `wallet`. -/
def wallet_keywords : List String :=
  ["wallet", "balance", "account", "private key", "seed phrase", "coinbase",
   "metamask", "ledger", "trezor"]

/-- Line 313: category keywords for `transaction`. -/
def transaction_keywords : List String := ["transaction", "swap", "transfer", "tx"]

/-- Line 315: category keywords for `contract`. -/
def contract_keywords : List String := ["contract", "smart contract", "solidity"]

/-- Line 317: category keywords for `gas-fee`. -/
def gasfee_keywords : List String := ["gas", "fee"]

/-- Line 319: category keywords for `help`. -/
def help_keywords : List String := ["help", "question", "how to"]

/-- Lines 302-320 of `create_issue_in_target_repo`: the category if/elif
chain over the lower-cased title plus `originalBodyText`, first match wins,
default `general`. -/
def detect_category (i : Issue) : String :=
  let c := lowerStr i.title ++ " " ++ lowerStr (originalBodyText i)
  if hasAnyKeyword c bug_keywords then "bug"
  else if hasAnyKeyword c security_keywords then "security"
  else if hasAnyKeyword c wallet_keywords then "wallet"
  else if hasAnyKeyword c transaction_keywords then "transaction"
  else if hasAnyKeyword c contract_keywords then "contract"
  else if hasAnyKeyword c gasfee_keywords then "gas-fee"
  else if hasAnyKeyword c help_keywords then "help"
  else "general"

/-- Python `s.split("/")`, keeping empty segments (structural, so that the
kernel can evaluate it; `String.splitOn` is not kernel-reducible). -/
def splitOnSlash : List Char → List (List Char)
  | [] => [[]]
  | c :: rest =>
    let r := splitOnSlash rest
    if c = '/' then [] :: r
    else
      match r with
      | [] => [[c]]
      | seg :: segs => (c :: seg) :: segs

/-- Line 323: `'source:' + source_repo.split("/")[0]` — the first segment
of a `/`-split is everything before the first slash. -/
def sourceLabel (source_repo : String) : String :=
  "source:" ++ String.mk (source_repo.data.takeWhile (fun c => c != '/'))

/-- Lines 41-50: the default `team_assignments` mapping from `load_config`,
as an ordered association list. -/
def default_team_assignments : List (String × List String) :=
  [("wallet", ["@keisinoc"]),
   ("security", ["@autumndss"]),
   ("bug", ["@keisinoc"]),
   ("transaction", ["@keisinoc"]),
   ("contract", ["@keisinoc"]),
   ("gas-fee", ["@keisinoc"]),
   ("help", ["@keisinoc"]),
   ("general", ["@keisinoc"])]

/-- Lines 161-164: `get_assignee_for_category` — look the category up in the
team mapping, defaulting to the `general` entry, and take the first handle
(or none when the list is empty). -/
def get_assignee_for_category (team : List (String × List String))
    (category : String) : Option String :=
  let assignees :=
    match List.lookup category team with
    | some l => l
    | none => (List.lookup ("general") team).getD []
  assignees.head?

/-!
Embedding of `difflib.SequenceMatcher(None, a, b).ratio()` as used by
`similarity` (line 130).  With `isjunk = None` the junk set `bjunk` stays
empty, but the default `autojunk = True` heuristic of `__chain_b` is
active: when `len(b) ≥ 200`, characters occurring more than
`len(b) // 100 + 1` times are purged from the `b2j` table and so cannot
anchor a match of the dynamic-programming scan.  Because of that purge the
first two (non-junk) extension `while` loops of `find_longest_match` are
load-bearing and are modelled; the last two loops extend only over `bjunk`
members and are inert here.
-/

/-- Number of occurrences of a character in `b` (the `len(idxs)` of the
`b2j` entry built by `SequenceMatcher.__chain_b`). -/
def countCh (b : List Char) (c : Char) : Nat :=
  (b.filter (fun d => d == c)).length

/-- The autojunk popularity test of `SequenceMatcher.__chain_b` (default
`autojunk=True`): active only when `b` has at least 200 elements, and then
a character occurring more than `len(b) // 100 + 1` times is popular. -/
def isPopular (b : List Char) (c : Char) : Bool :=
  decide (200 ≤ b.length) && decide (b.length / 100 + 1 < countCh b c)

/-- The `b2j` table of `SequenceMatcher.__chain_b`: the indices at which a
character occurs in `b`, in increasing order, with popular characters
purged by the autojunk heuristic (their entries are deleted, so the scan
sees no occurrence). -/
def b2j (b : List Char) (c : Char) : List Nat :=
  if isPopular b c then []
  else (b.enum.filter (fun p => p.2 == c)).map Prod.fst

/-- Inner loop of `find_longest_match` over the occurrence list of `a[i]`:
`j < blo` is skipped, `j >= bhi` breaks (the indices are increasing),
`newj2len[j] = j2len.get(j-1, 0) + 1`, and the best block is updated on a
strict improvement.  `j2len` and the accumulator are total maps defaulting
to `0`, matching `dict.get(·, 0)`; the guard on `j = 0` matches the failing
lookup of `-1`. -/
def flmRow (j2len : Nat → Nat) (i blo bhi : Nat) :
    List Nat → (Nat → Nat) → Nat × Nat × Nat → ((Nat → Nat) × (Nat × Nat × Nat))
  | [], acc, best => (acc, best)
  | j :: js, acc, best =>
    if j < blo then flmRow j2len i blo bhi js acc best
    else if bhi ≤ j then (acc, best)
    else
      let k := (if j = 0 then 0 else j2len (j - 1)) + 1
      let acc' : Nat → Nat := fun m => if m = j then k else acc m
      let best' := if best.2.2 < k then (i + 1 - k, j + 1 - k, k) else best
      flmRow j2len i blo bhi js acc' best'

/-- Outer loop of `find_longest_match` over `i ∈ range(alo, ahi)`; each row
starts from an empty `newj2len` and the previous row's map. -/
def flmRows (a : List Char) (bj : Char → List Nat) (blo bhi : Nat) :
    List Nat → (Nat → Nat) → Nat × Nat × Nat → Nat × Nat × Nat
  | [], _, best => best
  | i :: irest, j2len, best =>
    let step := flmRow j2len i blo bhi (bj (a.getD i ' ')) (fun _ => 0) best
    flmRows a bj blo bhi irest step.1 step.2

/-- First extension loop of `find_longest_match`: with `isjunk = None` the
junk set `bjunk` is empty, so `not isbjunk(b[bestj-1])` always holds and
the guard is the window bounds plus character equality; the best match is
extended backwards while the preceding characters agree.  The indices stay
within the window, so the list defaults are never reached; the fuel bounds
the iteration count and is chosen sufficiently large by the caller. -/
def extendBack (a b : List Char) (alo blo : Nat) :
    Nat → Nat × Nat × Nat → Nat × Nat × Nat
  | 0, best => best
  | fuel + 1, (besti, bestj, bestsize) =>
    if alo < besti ∧ blo < bestj ∧
        a.getD (besti - 1) ' ' = b.getD (bestj - 1) ' ' then
      extendBack a b alo blo fuel (besti - 1, bestj - 1, bestsize + 1)
    else (besti, bestj, bestsize)

/-- Second extension loop of `find_longest_match`: the best match is
extended forwards while the following characters agree within the window.
It also turns an empty scan result into a run anchored at the window
start, which is how wholly-popular text still matches. -/
def extendFwd (a b : List Char) (ahi bhi : Nat) :
    Nat → Nat × Nat × Nat → Nat × Nat × Nat
  | 0, best => best
  | fuel + 1, (besti, bestj, bestsize) =>
    if besti + bestsize < ahi ∧ bestj + bestsize < bhi ∧
        a.getD (besti + bestsize) ' ' = b.getD (bestj + bestsize) ' ' then
      extendFwd a b ahi bhi fuel (besti, bestj, bestsize + 1)
    else (besti, bestj, bestsize)

/-- The `find_longest_match` of CPython `difflib.py` on the window
`a[alo:ahi]`, `b[blo:bhi]`: the dynamic-programming scan over the purged
`b2j` starting from the best `(alo, blo, 0)`, followed by the two
non-junk extension loops (the junk-extension loops are inert since
`bjunk` is empty when `isjunk` is `None`). -/
def find_longest_match (a b : List Char) (bj : Char → List Nat)
    (alo ahi blo bhi : Nat) : Nat × Nat × Nat :=
  let dp := flmRows a bj blo bhi (List.range' alo (ahi - alo)) (fun _ => 0) (alo, blo, 0)
  extendFwd a b ahi bhi (ahi + 1) (extendBack a b alo blo (ahi + 1) dp)

/-- The recursion of `get_matching_blocks`, summing the sizes of the
matching blocks: each window yields its longest match and splits into the
window before and the window after it.  The explicit work stack mirrors
`queue`; the fuel bounds the number of windows ever processed and is chosen
large enough at the top call (each processed window either disappears or
contributes at least one matched character to two strictly smaller
windows). -/
def mbSum (a b : List Char) (bj : Char → List Nat) :
    Nat → List (Nat × Nat × Nat × Nat) → Nat
  | 0, _ => 0
  | _ + 1, [] => 0
  | fuel + 1, (alo, ahi, blo, bhi) :: rest =>
    let t := find_longest_match a b bj alo ahi blo bhi
    if t.2.2 = 0 then mbSum a b bj fuel rest
    else t.2.2 + mbSum a b bj fuel
      ((alo, t.1, blo, t.2.1) :: (t.1 + t.2.2, ahi, t.2.1 + t.2.2, bhi) :: rest)

/-- Total number of matching characters found by
`SequenceMatcher.get_matching_blocks` (the `sum(triple[-1] ...)` of
`ratio`). -/
def sm_matches (a b : List Char) : Nat :=
  mbSum a b (b2j b) (2 * (a.length + b.length) + 2) [(0, a.length, 0, b.length)]

/-- The `_calculate_ratio(matches, len(a) + len(b))` of `difflib`:
`2.0 * matches / length`, and `1.0` when both strings are empty.  The float
arithmetic is modelled exactly over `ℚ`; for the string lengths the monitor
can ever see, the IEEE-double comparison against the literal `0.7` decides
exactly as the rational comparison against `7/10`. -/
def calcRatioQ (m length : Nat) : ℚ :=
  if length = 0 then 1 else (2 * m : ℚ) / length

/-- Lines 130-132: `similarity` — the `SequenceMatcher` ratio of the two
lower-cased texts. -/
def similarity (text1 text2 : String) : ℚ :=
  let a := (lowerStr text1).data
  let b := (lowerStr text2).data
  calcRatioQ (sm_matches a b) (a.length + b.length)

/-- An open issue of the target tracker, as read by
`check_for_duplicates` (fields `number`, `title`, `html_url`). -/
structure ExistingIssue where
  number : Nat
  title : String
  html_url : String
deriving DecidableEq

/-- A reported duplicate (lines 148-153). -/
structure DuplicateMatch where
  number : Nat
  title : String
  url : String
  similarity : ℚ
deriving DecidableEq

/-- Lines 134-155: `check_for_duplicates` — for each open issue of the
target tracker (in the order the collaborator returns them), report it iff
the title similarity is at least `0.7`.  The body argument is accepted and
ignored, exactly as in the source; transport failures of the collaborator
are modelled by the caller passing an empty list. -/
def check_for_duplicates (issue_title : String) (issue_body : String)
    (existing : List ExistingIssue) : List DuplicateMatch :=
  existing.filterMap (fun e =>
    let s := similarity issue_title e.title
    if (7 : ℚ)/10 ≤ s then some ⟨e.number, e.title, e.html_url, s⟩ else none)

/-- Line 277: `for dup in duplicates[:3]` — the rendered duplicate section
lists the first three reported matches, in reported order. -/
def renderedDuplicates (dups : List DuplicateMatch) : List DuplicateMatch :=
  dups.take 3

/-- Lines 300-326: the label list of the composed issue:
`['auto-detected', priority]`, then the category, then the
`source:` label, then `possible-duplicate` iff any duplicate was found. -/
def composeLabels (i : Issue) (source_repo : String)
    (dups : List DuplicateMatch) : List String :=
  ["auto-detected", detect_priority i, detect_category i, sourceLabel source_repo]
    ++ (if dups.isEmpty then [] else ["possible-duplicate"])

/-- Character class `[a-zA-Z0-9_-]` of the mention regex (line 172). -/
def isHandleChar (c : Char) : Bool :=
  ('a' ≤ c && c ≤ 'z') || ('A' ≤ c && c ≤ 'Z') || ('0' ≤ c && c ≤ '9') ||
    c == '_' || c == '-'

/-- Fueled left-to-right non-overlapping scan of
`re.findall(r'@([a-zA-Z0-9_-]+)', body)`: at each `@`, the greedy `+` takes
the maximal run of handle characters; an empty run is no match and the scan
resumes at the next character.  The fuel is the input length, which
suffices because every step consumes at least one character. -/
def findMentionsGo : Nat → List Char → List String
  | 0, _ => []
  | _ + 1, [] => []
  | fuel + 1, c :: rest =>
    if c = '@' then
      let run := rest.takeWhile isHandleChar
      if run.isEmpty then findMentionsGo fuel rest
      else String.mk run :: findMentionsGo fuel (rest.drop run.length)
    else findMentionsGo fuel rest

/-- All `@`-mention capture groups of a body, first first. -/
def findMentions (l : List Char) : List String := findMentionsGo l.length l

/-- Lines 166-180: `find_real_issue_owner` — the first `@`-mention of the
body, if any (an absent body is the empty string and yields none). -/
def find_real_issue_owner (issue_body : String) : Option String :=
  (findMentions issue_body.data).head?

/-- Decimal digit test of `\d`. -/
def isDigitCh (c : Char) : Bool := '0' ≤ c && c ≤ '9'

/-- Numeric value of a digit run (Python `int(...)`). -/
def digitsToNat (ds : List Char) : Nat :=
  ds.foldl (fun n c => 10 * n + (c.toNat - '0'.toNat)) 0

/-- Match of the link regex
`https://github\.com/[^/]+/[^/]+/issues/\d+` anchored at the head of the
list.  Both `[^/]+` groups are forced (they cannot contain the following
`/`), so the regex is deterministic: each segment is the maximal run of
non-`/` characters and `\d+` is the maximal digit run.  Returns the matched
span and the remainder of the input. -/
def matchLink (l : List Char) : Option (List Char × List Char) :=
  let pre := ("https://github.com/").data
  if hasPrefixL pre l then
    let r1 := l.drop pre.length
    let owner := r1.takeWhile (fun c => c != '/')
    if owner.isEmpty then none else
      match r1.drop owner.length with
      | '/' :: r2 =>
        let repo := r2.takeWhile (fun c => c != '/')
        if repo.isEmpty then none else
          let r3 := r2.drop repo.length
          if hasPrefixL (("/issues/").data) r3 then
            let ds := (r3.drop 8).takeWhile isDigitCh
            if ds.isEmpty then none
            else some (pre ++ owner ++ ['/'] ++ repo ++ ("/issues/").data ++ ds,
                       (r3.drop 8).drop ds.length)
          else none
      | _ => none
  else none

/-- Fueled left-to-right non-overlapping scan of
`re.findall(r'https://github\.com/[^/]+/[^/]+/issues/\d+', body)` (line
212); a match consumes its span, a failure advances one character.  The
fuel is the input length, which suffices because every step consumes at
least one character. -/
def findLinksGo : Nat → List Char → List String
  | 0, _ => []
  | _ + 1, [] => []
  | fuel + 1, c :: rest =>
    match matchLink (c :: rest) with
    | some (m, r) => String.mk m :: findLinksGo fuel r
    | none => findLinksGo fuel rest

/-- All tracker-issue links of a body, first first. -/
def findLinks (body : String) : List String :=
  findLinksGo body.data.length body.data

/-- Match of the parsing regex of `get_original_issue_owner` (line 186),
`github\.com/([^/]+)/([^/]+)/issues/(\d+)`, anchored at the head; the same
determinism argument as for `matchLink` applies. -/
def parseIssueAt (l : List Char) : Option (String × String × Nat) :=
  let pre := ("github.com/").data
  if hasPrefixL pre l then
    let r1 := l.drop pre.length
    let owner := r1.takeWhile (fun c => c != '/')
    if owner.isEmpty then none else
      match r1.drop owner.length with
      | '/' :: r2 =>
        let repo := r2.takeWhile (fun c => c != '/')
        if repo.isEmpty then none else
          let r3 := r2.drop repo.length
          if hasPrefixL (("/issues/").data) r3 then
            let ds := (r3.drop 8).takeWhile isDigitCh
            if ds.isEmpty then none
            else some (String.mk owner, String.mk repo, digitsToNat ds)
          else none
      | _ => none
  else none

/-- The `re.search` of `get_original_issue_owner`: first position at which
`parseIssueAt` succeeds. -/
def searchIssueRef : List Char → Option (String × String × Nat)
  | [] => none
  | c :: rest =>
    match parseIssueAt (c :: rest) with
    | some t => some t
    | none => searchIssueRef rest

/-- The source-tracker collaborator behind `get_original_issue_owner`:
given owner, repository and issue number, the creator login of the
referenced issue, or `none` when the fetch fails (non-200 status or
exception). -/
def Fetcher : Type := String → String → Nat → Option String

/-- Lines 182-205: `get_original_issue_owner` — parse the URL and ask the
collaborator for the referenced issue's creator; `none` when the URL does
not parse or the fetch fails. -/
def get_original_issue_owner (fetch : Fetcher) (issue_url : String) :
    Option String :=
  match searchIssueRef issue_url.data with
  | none => none
  | some (owner, repo, num) => fetch owner repo num

/-- Lines 207-225: `find_real_owner` — the three-strategy chain: the
creator of the first linked tracker issue when that fetch succeeds,
otherwise the first `@`-mention of the body, otherwise the issue's own
reporter. -/
def find_real_owner (fetch : Fetcher) (issue : Issue) : String :=
  let body := orEmpty issue.body
  let viaLink : Option String :=
    match findLinks body with
    | [] => none
    | l :: _ => get_original_issue_owner fetch l
  match viaLink with
  | some o => o
  | none =>
    match find_real_issue_owner body with
    | some m => m
    | none => issue.user

/-- Line 375: the processed-set key `f"{repo}#{issue['number']}"`. -/
def mkIssueId (repo : String) (number : Nat) : String :=
  repo ++ "#" ++ toString number

/-- Observable collaborator effects of one run, in order of occurrence. -/
inductive Event where
  | createAttempt (source_repo : String) (issue : Issue) (ok : Bool)
  | markedProcessed (id : String)
  | commentAttempt (issueNumber : Nat) (owner : String) (ok : Bool)
deriving DecidableEq

/-- The external collaborators and configuration of a run.  `createResult`
abstracts the POST of `create_issue_in_target_repo` (lines 336-347): the
new target-issue number on a 201 response, `none` on a non-201 response or
an exception.  `commentOk` abstracts the POST of
`mention_real_owner_in_our_issue` (lines 245-255) which reports success as
a Bool the pipeline ignores.  `recentIssues` abstracts
`get_recent_issues` (a failed fetch is the empty list, lines 94-99); the
pull-request records are already excluded by line 93. -/
structure Env where
  keywords : List String
  monitored_repos : List String
  rateRemaining : Nat
  recentIssues : String → List Issue
  createResult : String → Issue → Option Nat
  commentOk : Nat → String → Bool
  fetchCreator : Fetcher
  searchResults : Option (List Issue)

/-- Lines 374-395: the per-issue body of the monitoring loop.  An already
processed identifier short-circuits; a relevant issue is submitted and its
identifier recorded (followed by the owner comment, whose outcome is
ignored) only when the submission succeeds; an irrelevant issue has its
identifier recorded without submission. -/
def processIssue (env : Env) (repo : String) (p : List String)
    (issue : Issue) : List String × List Event :=
  if mkIssueId repo issue.number ∈ p then (p, [])
  else if matches_criteria env.keywords issue then
    match env.createResult repo issue with
    | some n =>
      (mkIssueId repo issue.number :: p,
       [Event.createAttempt repo issue true,
        Event.markedProcessed (mkIssueId repo issue.number),
        Event.commentAttempt n (find_real_owner env.fetchCreator issue)
          (env.commentOk n (find_real_owner env.fetchCreator issue))])
    | none => (p, [Event.createAttempt repo issue false])
  else (mkIssueId repo issue.number :: p, [Event.markedProcessed (mkIssueId repo issue.number)])

/-- The inner `for issue in issues` loop of `monitor_repositories`. -/
def runIssues (env : Env) (repo : String) :
    List Issue → List String × List Event → List String × List Event
  | [], acc => acc
  | issue :: rest, acc =>
    let r := processIssue env repo acc.1 issue
    runIssues env repo rest (r.1, acc.2 ++ r.2)

/-- The outer `for repo in self.monitored_repos` loop. -/
def runRepos (env : Env) :
    List String → List String × List Event → List String × List Event
  | [], acc => acc
  | repo :: rest, acc =>
    runRepos env rest (runIssues env repo (env.recentIssues repo) acc)

/-- Lines 349-397: `monitor_repositories` — abort before any processing
when fewer than 100 API requests remain, otherwise run both loops; the
returned state is what `save_processed_issues` persists. -/
def monitor_repositories (env : Env) (processed : List String) :
    List String × List Event :=
  if env.rateRemaining < 100 then (processed, [])
  else runRepos env env.monitored_repos (processed, [])

/-- Lines 427-428: `repo` reconstructed from the last two segments of
`repository_url`.  Python indexes `parts[-2]`; the out-of-range case (a
URL with no `/`, which the search API never returns) raises in Python and
is clamped here, and no claim depends on it. -/
def searchRepoOf (i : Issue) : String :=
  let parts := splitOnSlash i.repository_url.data
  String.mk (parts.getD (parts.length - 2) []) ++ "/" ++
    String.mk (parts.getD (parts.length - 1) [])

/-- Lines 426-444: the per-issue body of the search loop.  Note the shape
differs from the monitoring loop: the `else` branch also re-records an
already-processed identifier (a set no-op there). -/
def searchStep (env : Env) (acc : List String × List Event)
    (issue : Issue) : List String × List Event :=
  let repo := searchRepoOf issue
  let issue_id := mkIssueId repo issue.number
  if issue_id ∉ acc.1 ∧ matches_criteria env.keywords issue = true then
    match env.createResult repo issue with
    | some n =>
      (issue_id :: acc.1,
       acc.2 ++ [Event.createAttempt repo issue true,
         Event.markedProcessed issue_id,
         Event.commentAttempt n (find_real_owner env.fetchCreator issue)
           (env.commentOk n (find_real_owner env.fetchCreator issue))])
    | none => (acc.1, acc.2 ++ [Event.createAttempt repo issue false])
  else (issue_id :: acc.1, acc.2 ++ [Event.markedProcessed issue_id])

/-- Lines 406-451: `search_github_for_crypto_issues` — a failed search
request (non-200 or exception) leaves the state untouched; otherwise every
returned item runs through `searchStep` and the final state is
persisted. -/
def search_github (env : Env) (processed : List String) :
    List String × List Event :=
  match env.searchResults with
  | none => (processed, [])
  | some issues => issues.foldl (searchStep env) (processed, [])

/-!
Concrete fixtures used by the witnesses and counterexamples below.
-/

/-- The source issue of the end-to-end scenario of the spec (§8). -/
def acmeIssue : Issue :=
  { number := 42, title := "Funds stuck after swap",
    body := some ("cc @realuser, urgent!"), user := "botaccount",
    html_url := "https://github.com/acme/wallet/issues/42",
    created_at := "2024-01-01T00:00:00Z" }

/-- An issue matching no keyword of `envFail` (used for the relevance-gate
witness). -/
def boringIssue : Issue :=
  { number := 7, title := "Update readme badge",
    body := some ("typo only"), user := "someone",
    html_url := "https://github.com/acme/wallet/issues/7",
    created_at := "2024-01-02T00:00:00Z" }

/-- A run environment whose target-tracker creation always fails. -/
def envFail : Env :=
  { keywords := ["stuck"],
    monitored_repos := ["acme/wallet"],
    rateRemaining := 4500,
    recentIssues := fun r => if r = "acme/wallet" then [acmeIssue, boringIssue] else [],
    createResult := fun _ _ => none,
    commentOk := fun _ _ => true,
    fetchCreator := fun _ _ _ => none,
    searchResults := some [] }

/-- A run environment whose target-tracker creation always succeeds and
whose comment call always fails. -/
def envOk : Env :=
  { keywords := ["stuck"],
    monitored_repos := ["acme/wallet"],
    rateRemaining := 4500,
    recentIssues := fun r => if r = "acme/wallet" then [acmeIssue, boringIssue] else [],
    createResult := fun _ _ => some 99,
    commentOk := fun _ _ => false,
    fetchCreator := fun _ _ _ => none,
    searchResults := some [] }

/-- Open target-tracker issues for the duplicate-cap counterexample: three
earlier matches of similarity exactly `7/10` and a later exact-title match
of similarity `1`. -/
def exC7 : List ExistingIssue :=
  [⟨1, "abcdefgxyz", "u1"⟩, ⟨2, "abcdefgxyz", "u2"⟩,
   ⟨3, "abcdefgxyz", "u3"⟩, ⟨4, "abcdefghij", "u4"⟩]

/-- A 200-character title in the autojunk regime: its 195-character tail
is purged as popular, so only the five `x` can anchor a match. -/
def pxTitle : String := String.mk (List.replicate 5 'x' ++ List.replicate 195 'a')

/-- Partner of `pxTitle` differing exactly in the five non-popular head
characters. -/
def pyTitle : String := String.mk (List.replicate 5 'y' ++ List.replicate 195 'a')

/-- Body and oracle for the owner-chain witness. -/
def bodyC4 : String := "see https://github.com/o/r/issues/5 cc @helper"

/-- Fetch oracle resolving exactly the issue `o/r#5` to `creator`. -/
def fetchC4 : Fetcher :=
  fun o r n => if o = "o" ∧ r = "r" ∧ n = 5 then some ("creator") else none

/-- Issue whose body carries both a resolvable link and a mention. -/
def issueC4 : Issue :=
  { number := 11, title := "t", body := some bodyC4, user := "reporter-acct",
    html_url := "https://github.com/s/t/issues/11",
    created_at := "2024-01-03T00:00:00Z" }

/-- Issue whose text hits both a critical-tier and a low-tier keyword. -/
def critLowIssue : Issue :=
  { number := 2, title := "Critical: minor suggestion", body := none,
    user := "u", html_url := "", created_at := "" }

/-!
Theorems.  Helper lemmas come first; each claim of the review then gets
exactly one theorem (plus, where required, a counterexample and a
witness).
-/

/-- Characterisation of `check_for_duplicates`: exactly the open issues
whose title similarity reaches the threshold are reported, in the
collaborator's order, with the similarity score attached. -/
theorem check_for_duplicates_eq (t b : String) (ex : List ExistingIssue) :
    check_for_duplicates t b ex =
      (ex.filter (fun e => decide ((7 : ℚ)/10 ≤ similarity t e.title))).map
        (fun e => ⟨e.number, e.title, e.html_url, similarity t e.title⟩) := by
  induction ex with
  | nil => rfl
  | cons e rest ih =>
    by_cases h : (7 : ℚ)/10 ≤ similarity t e.title
    · simp [check_for_duplicates, List.filter_cons, h] at ih ⊢
      exact ih
    · simp [check_for_duplicates, List.filter_cons, h] at ih ⊢
      exact ih

/-- C1 (counterexample): on the scenario issue of the claim — repo
`acme/wallet`, number 42, title `Funds stuck after swap`, body
`cc @realuser, urgent!`, reporter `botaccount` — the priority classifier
returns `priority-critical`, not the urgent tier the claim states, because
the critical tier's keyword list itself contains `urgent`. -/
theorem c1_refuted :
    detect_priority acmeIssue = "priority-critical" ∧
    detect_priority acmeIssue ≠ "priority-urgent" := by
  decide

/-- C1 (amended): for the scenario issue with a keyword configuration
including `stuck`, the relevance filter returns true; the priority
classifier returns the critical tier (the critical keyword list contains
`urgent`); the category classifier returns `transaction`; owner resolution
falls to the mention strategy and resolves `realuser` for every fetch
collaborator; and with no open target issues the composed labels are
`auto-detected, priority-critical, transaction, source:acme` with the
assignee taken from the `transaction` entry of the team mapping. -/
theorem c1_scenario (kws : List String) (hk : "stuck" ∈ kws) :
    matches_criteria kws acmeIssue = true ∧
    detect_priority acmeIssue = "priority-critical" ∧
    detect_category acmeIssue = "transaction" ∧
    (∀ fetch : Fetcher, find_real_owner fetch acmeIssue = "realuser") ∧
    composeLabels acmeIssue ("acme/wallet")
        (check_for_duplicates ("Funds stuck after swap") ("cc @realuser, urgent!") []) =
      ["auto-detected", "priority-critical", "transaction", "source:acme"] ∧
    List.lookup ("transaction") default_team_assignments = some ["@keisinoc"] ∧
    get_assignee_for_category default_team_assignments ("transaction") =
      some ("@keisinoc") := by
  refine ⟨?_, by decide, by decide, ?_, by decide, by decide, by decide⟩
  · have h : containsSub (issueContent acmeIssue).data (lowerStr ("stuck")).data = true := by
      decide
    exact List.any_eq_true.mpr ⟨"stuck", hk, h⟩
  · intro fetch
    have hlink : findLinks (orEmpty acmeIssue.body) = [] := by decide
    have hm : find_real_issue_owner (orEmpty acmeIssue.body) = some ("realuser") := by
      decide
    simp only [find_real_owner]
    rw [hlink]
    simp [hm]

/-- C1 (witness). -/
theorem c1_scenario_witness :
    "stuck" ∈ ["stuck", "wallet"] ∧
    matches_criteria ["stuck", "wallet"] acmeIssue = true :=
  ⟨by decide, (c1_scenario ["stuck", "wallet"] (by decide)).1⟩

/-- C2: the priority tiers are evaluated in fixed descending order
critical, urgent, high, low with first match winning: text hitting both a
critical-tier and a low-tier keyword classifies as critical, each later
tier fires only when every earlier tier missed, and text hitting no tier
classifies as the medium default. -/
theorem c2_priority_order :
    (∀ i : Issue, hasAnyKeyword (issueContent i) critical_keywords = true →
        hasAnyKeyword (issueContent i) low_keywords = true →
        detect_priority i = "priority-critical") ∧
    (∀ i : Issue,
        hasAnyKeyword (issueContent i) critical_keywords = false →
        hasAnyKeyword (issueContent i) urgent_keywords = true →
        detect_priority i = "priority-urgent") ∧
    (∀ i : Issue,
        hasAnyKeyword (issueContent i) critical_keywords = false →
        hasAnyKeyword (issueContent i) urgent_keywords = false →
        hasAnyKeyword (issueContent i) high_keywords = true →
        detect_priority i = "priority-high") ∧
    (∀ i : Issue,
        hasAnyKeyword (issueContent i) critical_keywords = false →
        hasAnyKeyword (issueContent i) urgent_keywords = false →
        hasAnyKeyword (issueContent i) high_keywords = false →
        hasAnyKeyword (issueContent i) low_keywords = true →
        detect_priority i = "priority-low") ∧
    (∀ i : Issue,
        hasAnyKeyword (issueContent i) critical_keywords = false →
        hasAnyKeyword (issueContent i) urgent_keywords = false →
        hasAnyKeyword (issueContent i) high_keywords = false →
        hasAnyKeyword (issueContent i) low_keywords = false →
        detect_priority i = "priority-medium") := by
  refine ⟨?_, ?_, ?_, ?_, ?_⟩ <;> intro i <;> intros <;> simp_all [detect_priority]

/-- C2 (witness). -/
theorem c2_priority_order_witness :
    (hasAnyKeyword (issueContent critLowIssue) critical_keywords = true ∧
     hasAnyKeyword (issueContent critLowIssue) low_keywords = true ∧
     detect_priority critLowIssue = "priority-critical") ∧
    (hasAnyKeyword (issueContent boringIssue) critical_keywords = false ∧
     hasAnyKeyword (issueContent boringIssue) urgent_keywords = false ∧
     hasAnyKeyword (issueContent boringIssue) high_keywords = false ∧
     hasAnyKeyword (issueContent boringIssue) low_keywords = false ∧
     detect_priority boringIssue = "priority-medium") :=
  ⟨⟨by decide, by decide,
    c2_priority_order.1 critLowIssue (by decide) (by decide)⟩,
   ⟨by decide, by decide, by decide, by decide,
    c2_priority_order.2.2.2.2 boringIssue (by decide) (by decide) (by decide) (by decide)⟩⟩

/-- Evaluation helper: a similarity value from concrete match and length
counts (the rational arithmetic itself is not kernel-reducible, so the
counts are evaluated separately and the ratio is finished by
`norm_num`). -/
theorem similarity_eq (t1 t2 : String) (m n : Nat)
    (hm : sm_matches (lowerStr t1).data (lowerStr t2).data = m)
    (hn : (lowerStr t1).data.length + (lowerStr t2).data.length = n) :
    similarity t1 t2 = calcRatioQ m n := by
  simp only [similarity]
  rw [hm, hn]

/-- The boundary pair of C3: similarity exactly `7/10`. -/
theorem sim_boundary : similarity ("abcdefgxyz") ("abcdefguvw") = 7/10 := by
  rw [similarity_eq ("abcdefgxyz") ("abcdefguvw") 7 20 (by decide) (by decide)]
  norm_num [calcRatioQ]

/-- Similarity of the C7 candidate against the three early matches. -/
theorem sim_c7_low : similarity ("abcdefghij") ("abcdefgxyz") = 7/10 := by
  rw [similarity_eq ("abcdefghij") ("abcdefgxyz") 7 20 (by decide) (by decide)]
  norm_num [calcRatioQ]

/-- Similarity of the C7 candidate against the exact-title match. -/
theorem sim_c7_high : similarity ("abcdefghij") ("abcdefghij") = 1 := by
  rw [similarity_eq ("abcdefghij") ("abcdefghij") 10 20 (by decide) (by decide)]
  norm_num [calcRatioQ]

set_option maxRecDepth 4000 in
/-- Autojunk validation: in the 200-character regime the popular common
tail of `pxTitle`/`pyTitle` is purged, no anchor survives the scan, the
extension loops stop at the differing heads, and the ratio is `0` — the
same score the program's `SequenceMatcher` gives this pair. -/
theorem sim_autojunk : similarity pxTitle pyTitle = 0 := by
  rw [similarity_eq pxTitle pyTitle 0 400 (by decide) (by decide)]
  norm_num [calcRatioQ]

/-- Consequently the autojunk pair, despite its long common tail, is not
reported as a duplicate: with one open issue titled `pyTitle` the detector
returns no match for candidate `pxTitle`. -/
theorem autojunk_pair_not_reported :
    check_for_duplicates pxTitle ("") [⟨8, pyTitle, "u"⟩] = [] := by
  rw [check_for_duplicates_eq]
  have hz : decide ((7 : ℚ)/10 ≤ similarity pxTitle pyTitle) = false := by
    rw [sim_autojunk]
    norm_num
  simp [hz]

/-- C3: a pair is reported as a duplicate iff the similarity of the
lower-cased titles — twice the matched characters over the sum of the two
lengths — is at least `7/10`; a pair of similarity exactly `7/10` is
reported, a pair of similarity `699/1000` is not, and similarity exactly
`7/10` is attained. -/
theorem c3_duplicate_threshold :
    (∀ t b ex, check_for_duplicates t b ex =
      (ex.filter (fun e => decide ((7 : ℚ)/10 ≤ similarity t e.title))).map
        (fun e => ⟨e.number, e.title, e.html_url, similarity t e.title⟩)) ∧
    (∀ t b ex, ∀ e ∈ ex, similarity t e.title = 7/10 →
      (⟨e.number, e.title, e.html_url, similarity t e.title⟩ : DuplicateMatch) ∈
        check_for_duplicates t b ex) ∧
    (∀ t b ex (e : ExistingIssue), similarity t e.title = 699/1000 →
      (⟨e.number, e.title, e.html_url, similarity t e.title⟩ : DuplicateMatch) ∉
        check_for_duplicates t b ex) ∧
    similarity ("abcdefgxyz") ("abcdefguvw") = 7/10 := by
  refine ⟨check_for_duplicates_eq, ?_, ?_, sim_boundary⟩
  · intro t b ex e he hs
    have h7 : (7 : ℚ)/10 ≤ similarity t e.title := le_of_eq hs.symm
    simp only [check_for_duplicates, List.mem_filterMap]
    exact ⟨e, he, by simp [h7]⟩
  · intro t b ex e hs hmem
    simp only [check_for_duplicates, List.mem_filterMap] at hmem
    obtain ⟨e', he', heq⟩ := hmem
    by_cases h : (7 : ℚ)/10 ≤ similarity t e'.title
    · simp only [if_pos h, Option.some.injEq, DuplicateMatch.mk.injEq] at heq
      have hsim : similarity t e'.title = similarity t e.title := heq.2.2.2
      rw [hsim, hs] at h
      norm_num at h
    · simp only [if_neg h] at heq
      simp at heq

/-- C3 (witness). -/
theorem c3_duplicate_threshold_witness :
    similarity ("abcdefgxyz") ("abcdefguvw") = 7/10 ∧
    (⟨5, "abcdefguvw", "u", similarity ("abcdefgxyz") ("abcdefguvw")⟩ : DuplicateMatch) ∈
      check_for_duplicates ("abcdefgxyz") ("any body") [⟨5, "abcdefguvw", "u"⟩] :=
  ⟨sim_boundary,
   c3_duplicate_threshold.2.1 ("abcdefgxyz") ("any body") [⟨5, "abcdefguvw", "u"⟩]
     ⟨5, "abcdefguvw", "u"⟩ (by decide) sim_boundary⟩

/-- C4: the owner-resolution chain in strict order: with a resolvable
first tracker-issue link the resolved owner is the linked issue's creator,
even when a mention is present; with no link, or with a first link whose
fetch fails, it is the first mention; with no mention either it is the
issue's own reporter, a strategy that cannot fail. -/
theorem c4_owner_chain :
    (∀ (fetch : Fetcher) (issue : Issue) (l : String) (rest : List String)
        (creator m : String),
      findLinks (orEmpty issue.body) = l :: rest →
      get_original_issue_owner fetch l = some creator →
      find_real_issue_owner (orEmpty issue.body) = some m →
      find_real_owner fetch issue = creator) ∧
    (∀ (fetch : Fetcher) (issue : Issue) (m : String),
      (findLinks (orEmpty issue.body) = [] ∨
        ∃ l rest, findLinks (orEmpty issue.body) = l :: rest ∧
          get_original_issue_owner fetch l = none) →
      find_real_issue_owner (orEmpty issue.body) = some m →
      find_real_owner fetch issue = m) ∧
    (∀ (fetch : Fetcher) (issue : Issue),
      (findLinks (orEmpty issue.body) = [] ∨
        ∃ l rest, findLinks (orEmpty issue.body) = l :: rest ∧
          get_original_issue_owner fetch l = none) →
      find_real_issue_owner (orEmpty issue.body) = none →
      find_real_owner fetch issue = issue.user) := by
  refine ⟨?_, ?_, ?_⟩
  · intro fetch issue l rest creator m hl hf hm
    simp only [find_real_owner]
    rw [hl]
    simp [hf]
  · intro fetch issue m hor hm
    simp only [find_real_owner]
    rcases hor with h | ⟨l, rest, hl, hf⟩
    · rw [h]
      simp [hm]
    · rw [hl]
      simp [hf, hm]
  · intro fetch issue hor hm
    simp only [find_real_owner]
    rcases hor with h | ⟨l, rest, hl, hf⟩
    · rw [h]
      simp [hm]
    · rw [hl]
      simp [hf, hm]

/-- C4 (witness). -/
theorem c4_owner_chain_witness :
    findLinks (orEmpty issueC4.body) = ["https://github.com/o/r/issues/5"] ∧
    get_original_issue_owner fetchC4 ("https://github.com/o/r/issues/5") =
      some ("creator") ∧
    find_real_issue_owner (orEmpty issueC4.body) = some ("helper") ∧
    find_real_owner fetchC4 issueC4 = "creator" :=
  ⟨by decide, by decide, by decide,
   c4_owner_chain.1 fetchC4 issueC4 ("https://github.com/o/r/issues/5") []
     ("creator") ("helper") (by decide) (by decide) (by decide)⟩

/-- C7 (counterexample): with four open issues above threshold of which
the last has strictly the highest similarity, the rendered list is the
first three reported matches and omits a match of strictly higher
similarity than every rendered one, so it is not the set of 3
highest-similarity matches the claim states. -/
theorem c7_refuted :
    (renderedDuplicates (check_for_duplicates ("abcdefghij") ("") exC7)).length = 3 ∧
    ∃ d ∈ check_for_duplicates ("abcdefghij") ("") exC7,
      d ∉ renderedDuplicates (check_for_duplicates ("abcdefghij") ("") exC7) ∧
      ∀ d' ∈ renderedDuplicates (check_for_duplicates ("abcdefghij") ("") exC7),
        d'.similarity < d.similarity := by
  have d1 : decide ((7 : ℚ)/10 ≤ similarity ("abcdefghij") ("abcdefgxyz")) = true := by
    rw [sim_c7_low]
    norm_num
  have d2 : decide ((7 : ℚ)/10 ≤ similarity ("abcdefghij") ("abcdefghij")) = true := by
    rw [sim_c7_high]
    norm_num
  have hdup : check_for_duplicates ("abcdefghij") ("") exC7 =
      [⟨1, "abcdefgxyz", "u1", similarity ("abcdefghij") ("abcdefgxyz")⟩,
       ⟨2, "abcdefgxyz", "u2", similarity ("abcdefghij") ("abcdefgxyz")⟩,
       ⟨3, "abcdefgxyz", "u3", similarity ("abcdefghij") ("abcdefgxyz")⟩,
       ⟨4, "abcdefghij", "u4", similarity ("abcdefghij") ("abcdefghij")⟩] := by
    rw [check_for_duplicates_eq]
    simp [exC7, d1, d2]
  rw [hdup]
  refine ⟨rfl,
    ⟨4, "abcdefghij", "u4", similarity ("abcdefghij") ("abcdefghij")⟩, ?_, ?_, ?_⟩
  · simp [renderedDuplicates]
  · simp [renderedDuplicates]
  · intro d' hd'
    simp only [renderedDuplicates, List.take, List.mem_cons, List.not_mem_nil,
      or_false] at hd'
    rcases hd' with h | h | h <;> rw [h] <;> rw [sim_c7_low, sim_c7_high] <;> norm_num

/-- C7 (amended): the rendered duplicate list is the first 3 matches above
threshold in the order the target tracker returns its open issues
(most-recent-first), not the 3 of highest similarity; the duplicate-flag
label is applied whenever at least one match above the threshold exists. -/
theorem c7_rendered_cap :
    (∀ t b ex, renderedDuplicates (check_for_duplicates t b ex) =
      ((ex.filter (fun e => decide ((7 : ℚ)/10 ≤ similarity t e.title))).map
        (fun e => ⟨e.number, e.title, e.html_url, similarity t e.title⟩)).take 3) ∧
    (∀ i srepo dups, dups ≠ [] →
      "possible-duplicate" ∈ composeLabels i srepo dups) := by
  constructor
  · intro t b ex
    rw [renderedDuplicates, check_for_duplicates_eq]
  · intro i srepo dups hd
    have he : dups.isEmpty = false := by
      simpa using hd
    simp [composeLabels, he]

/-- C7 (witness). -/
theorem c7_rendered_cap_witness :
    ([⟨1, "t", "u", 1⟩] : List DuplicateMatch) ≠ [] ∧
    "possible-duplicate" ∈ composeLabels acmeIssue ("acme/wallet") [⟨1, "t", "u", 1⟩] :=
  ⟨by decide,
   c7_rendered_cap.2 acmeIssue ("acme/wallet") [⟨1, "t", "u", 1⟩] (by decide)⟩

/-- C8: the duplicate detector never reads the candidate's body: its
result is identical for any two bodies, and which open issues are reported
is determined by the candidate title and the open issues' titles alone. -/
theorem c8_body_noninterference :
    (∀ t b1 b2 ex, check_for_duplicates t b1 ex = check_for_duplicates t b2 ex) ∧
    (∀ t b ex, (check_for_duplicates t b ex).map (fun d => d.number) =
      (ex.filter (fun e => decide ((7 : ℚ)/10 ≤ similarity t e.title))).map
        (fun e => e.number)) := by
  refine ⟨fun t b1 b2 ex => rfl, ?_⟩
  intro t b ex
  rw [check_for_duplicates_eq]
  simp [List.map_map, Function.comp]

/-- A processing step of the monitoring loop preserves membership of the
processed set. -/
theorem processIssue_mono (env : Env) (repo : String) (p : List String)
    (issue : Issue) : ∀ x ∈ p, x ∈ (processIssue env repo p issue).1 := by
  intro x hx
  by_cases h1 : mkIssueId repo issue.number ∈ p
  · simp [processIssue, h1, hx]
  · by_cases h2 : matches_criteria env.keywords issue = true
    · cases h3 : env.createResult repo issue with
      | some n => simp [processIssue, h1, h2, h3, hx]
      | none => simp [processIssue, h1, h2, h3, hx]
    · simp [processIssue, h1, h2, hx]

/-- A processing step adds nothing but the issue's own identifier. -/
theorem processIssue_subset (env : Env) (repo : String) (p : List String)
    (issue : Issue) :
    ∀ x ∈ (processIssue env repo p issue).1,
      x = mkIssueId repo issue.number ∨ x ∈ p := by
  intro x hx
  by_cases h1 : mkIssueId repo issue.number ∈ p
  · simp only [processIssue, if_pos h1] at hx
    exact Or.inr hx
  · by_cases h2 : matches_criteria env.keywords issue = true
    · cases h3 : env.createResult repo issue with
      | some n =>
        simp [processIssue, h1, h2, h3] at hx
        exact hx
      | none =>
        simp [processIssue, h1, h2, h3] at hx
        exact Or.inr hx
    · simp [processIssue, h1, h2] at hx
      exact hx

/-- Every create event of a step belongs to the step's own issue, and only
a relevant issue is ever submitted. -/
theorem processIssue_create_event (env : Env) (repo : String) (p : List String)
    (issue : Issue) (r' : String) (i' : Issue) (ok : Bool) :
    Event.createAttempt r' i' ok ∈ (processIssue env repo p issue).2 →
      i' = issue ∧ matches_criteria env.keywords issue = true := by
  intro hx
  by_cases h1 : mkIssueId repo issue.number ∈ p
  · simp [processIssue, h1] at hx
  · by_cases h2 : matches_criteria env.keywords issue = true
    · cases h3 : env.createResult repo issue with
      | some n =>
        simp [processIssue, h1, h2, h3] at hx
        exact ⟨hx.2.1, h2⟩
      | none =>
        simp [processIssue, h1, h2, h3] at hx
        exact ⟨hx.2.1, h2⟩
    · simp [processIssue, h1, h2] at hx

/-- The issue loop preserves membership of the processed set. -/
theorem runIssues_mono (env : Env) (repo : String) :
    ∀ (issues : List Issue) (p : List String) (tr : List Event) (x : String),
      x ∈ p → x ∈ (runIssues env repo issues (p, tr)).1 := by
  intro issues
  induction issues with
  | nil => intro p tr x hx; exact hx
  | cons i rest ih =>
    intro p tr x hx
    simp only [runIssues]
    exact ih _ _ x (processIssue_mono env repo p i x hx)

/-- The repository loop preserves membership of the processed set. -/
theorem runRepos_mono (env : Env) :
    ∀ (repos : List String) (p : List String) (tr : List Event) (x : String),
      x ∈ p → x ∈ (runRepos env repos (p, tr)).1 := by
  intro repos
  induction repos with
  | nil => intro p tr x hx; exact hx
  | cons r rest ih =>
    intro p tr x hx
    simp only [runRepos]
    exact ih _ _ x (runIssues_mono env r (env.recentIssues r) p tr x hx)

/-- If the issue's own step cannot add its identifier (its submission
fails) and no other visited issue carries the same identifier, the issue
loop never adds it. -/
theorem runIssues_notin (env : Env) (repo : String) (issue : Issue)
    (hm : matches_criteria env.keywords issue = true)
    (hc : env.createResult repo issue = none) :
    ∀ (repo' : String) (issues : List Issue) (p : List String) (tr : List Event),
      mkIssueId repo issue.number ∉ p →
      (∀ i' ∈ issues, mkIssueId repo' i'.number = mkIssueId repo issue.number →
        repo' = repo ∧ i' = issue) →
      mkIssueId repo issue.number ∉ (runIssues env repo' issues (p, tr)).1 := by
  intro repo' issues
  induction issues with
  | nil => intro p tr hp _; exact hp
  | cons i rest ih =>
    intro p tr hp hyp
    simp only [runIssues]
    have hstep : mkIssueId repo issue.number ∉ (processIssue env repo' p i).1 := by
      by_cases hid : mkIssueId repo' i.number = mkIssueId repo issue.number
      · obtain ⟨hr, hi⟩ := hyp i (List.mem_cons_self i rest) hid
        subst hr
        subst hi
        simp [processIssue, hp, hm, hc]
      · intro hmem
        rcases processIssue_subset env repo' p i _ hmem with h | h
        · exact hid (h ▸ rfl)
        · exact hp h
    exact ih _ _ hstep (fun i' hi' => hyp i' (List.mem_cons_of_mem i hi'))

/-- Lifting of `runIssues_notin` to the repository loop. -/
theorem runRepos_notin (env : Env) (repo : String) (issue : Issue)
    (hm : matches_criteria env.keywords issue = true)
    (hc : env.createResult repo issue = none) :
    ∀ (repos : List String) (p : List String) (tr : List Event),
      mkIssueId repo issue.number ∉ p →
      (∀ r' ∈ repos, ∀ i' ∈ env.recentIssues r',
        mkIssueId r' i'.number = mkIssueId repo issue.number →
        r' = repo ∧ i' = issue) →
      mkIssueId repo issue.number ∉ (runRepos env repos (p, tr)).1 := by
  intro repos
  induction repos with
  | nil => intro p tr hp _; exact hp
  | cons r rest ih =>
    intro p tr hp hyp
    simp only [runRepos]
    have h1 := runIssues_notin env repo issue hm hc r (env.recentIssues r) p tr hp
      (fun i' hi' => hyp r (List.mem_cons_self r rest) i' hi')
    exact ih _ _ h1 (fun r' hr' => hyp r' (List.mem_cons_of_mem r hr'))

/-- An irrelevant issue always ends with its identifier in the processed
set once its repository is visited. -/
theorem runIssues_visits (env : Env) (repo : String) (issue : Issue)
    (hm : matches_criteria env.keywords issue = false) :
    ∀ (issues : List Issue) (p : List String) (tr : List Event),
      issue ∈ issues →
      mkIssueId repo issue.number ∈ (runIssues env repo issues (p, tr)).1 := by
  intro issues
  induction issues with
  | nil => intro p tr h; cases h
  | cons i rest ih =>
    intro p tr hmem
    simp only [runIssues]
    rcases List.mem_cons.mp hmem with heq | htail
    · subst heq
      have hself : mkIssueId repo issue.number ∈ (processIssue env repo p issue).1 := by
        by_cases h1 : mkIssueId repo issue.number ∈ p
        · simp [processIssue, h1]
        · simp [processIssue, h1, hm]
      exact runIssues_mono env repo rest _ _ _ hself
    · exact ih _ _ htail

/-- Lifting of `runIssues_visits` across the repository loop. -/
theorem runRepos_reach (env : Env) (repo : String) (issue : Issue)
    (hm : matches_criteria env.keywords issue = false) :
    ∀ (repos : List String) (p : List String) (tr : List Event),
      repo ∈ repos → issue ∈ env.recentIssues repo →
      mkIssueId repo issue.number ∈ (runRepos env repos (p, tr)).1 := by
  intro repos
  induction repos with
  | nil => intro p tr h _; cases h
  | cons r rest ih =>
    intro p tr hr hi
    simp only [runRepos]
    rcases List.mem_cons.mp hr with heq | htail
    · subst heq
      have h1 := runIssues_visits env repo issue hm (env.recentIssues repo) p tr hi
      exact runRepos_mono env rest _ _ _ h1
    · exact ih _ _ htail hi

/-- Create events of the issue loop only concern relevant issues. -/
theorem runIssues_trace_create (env : Env) (repo : String) :
    ∀ (issues : List Issue) (p : List String) (tr : List Event),
      (∀ (r' : String) (i' : Issue) (ok : Bool),
        Event.createAttempt r' i' ok ∈ tr → matches_criteria env.keywords i' = true) →
      ∀ (r' : String) (i' : Issue) (ok : Bool),
        Event.createAttempt r' i' ok ∈ (runIssues env repo issues (p, tr)).2 →
        matches_criteria env.keywords i' = true := by
  intro issues
  induction issues with
  | nil => intro p tr h; exact h
  | cons i rest ih =>
    intro p tr h
    simp only [runIssues]
    apply ih
    intro r' i' ok hmem
    rcases List.mem_append.mp hmem with h1 | h2
    · exact h r' i' ok h1
    · obtain ⟨hi, hmi⟩ := processIssue_create_event env repo p i r' i' ok h2
      rw [hi]
      exact hmi

/-- Create events of the repository loop only concern relevant issues. -/
theorem runRepos_trace_create (env : Env) :
    ∀ (repos : List String) (p : List String) (tr : List Event),
      (∀ (r' : String) (i' : Issue) (ok : Bool),
        Event.createAttempt r' i' ok ∈ tr → matches_criteria env.keywords i' = true) →
      ∀ (r' : String) (i' : Issue) (ok : Bool),
        Event.createAttempt r' i' ok ∈ (runRepos env repos (p, tr)).2 →
        matches_criteria env.keywords i' = true := by
  intro repos
  induction repos with
  | nil => intro p tr h; exact h
  | cons r rest ih =>
    intro p tr h
    simp only [runRepos]
    apply ih
    exact runIssues_trace_create env r (env.recentIssues r) p tr h

/-- A search-path step preserves membership of the processed set. -/
theorem searchStep_mono (env : Env) (acc : List String × List Event) (i : Issue) :
    ∀ x ∈ acc.1, x ∈ (searchStep env acc i).1 := by
  intro x hx
  simp only [searchStep]
  split
  · split
    · exact List.mem_cons_of_mem _ hx
    · exact hx
  · exact List.mem_cons_of_mem _ hx

/-- The search loop preserves membership of the processed set. -/
theorem search_foldl_mono (env : Env) :
    ∀ (issues : List Issue) (acc : List String × List Event) (x : String),
      x ∈ acc.1 → x ∈ (issues.foldl (searchStep env) acc).1 := by
  intro issues
  induction issues with
  | nil => intro acc x hx; exact hx
  | cons i rest ih =>
    intro acc x hx
    rw [List.foldl_cons]
    exact ih _ x (searchStep_mono env acc i x hx)

/-- C5: for a relevant issue whose target-tracker submission fails and
whose identifier is held by no other fetched issue, the identifier is not
in the processed set after the run, and processing the issue again from
the resulting state re-attempts the submission. -/
theorem c5_create_failure_retry (env : Env) (p : List String) (repo : String)
    (issue : Issue)
    (hm : matches_criteria env.keywords issue = true)
    (hc : env.createResult repo issue = none)
    (hp : mkIssueId repo issue.number ∉ p)
    (huniq : ∀ r' ∈ env.monitored_repos, ∀ i' ∈ env.recentIssues r',
      mkIssueId r' i'.number = mkIssueId repo issue.number →
      r' = repo ∧ i' = issue) :
    mkIssueId repo issue.number ∉ (monitor_repositories env p).1 ∧
    processIssue env repo (monitor_repositories env p).1 issue =
      ((monitor_repositories env p).1, [Event.createAttempt repo issue false]) := by
  have hnot : mkIssueId repo issue.number ∉ (monitor_repositories env p).1 := by
    unfold monitor_repositories
    split
    · exact hp
    · exact runRepos_notin env repo issue hm hc env.monitored_repos p [] hp huniq
  exact ⟨hnot, by simp [processIssue, hnot, hm, hc]⟩

/-- C5 (witness). -/
theorem c5_create_failure_retry_witness :
    matches_criteria envFail.keywords acmeIssue = true ∧
    envFail.createResult ("acme/wallet") acmeIssue = none ∧
    mkIssueId ("acme/wallet") acmeIssue.number ∉ ([] : List String) ∧
    mkIssueId ("acme/wallet") acmeIssue.number ∉ (monitor_repositories envFail []).1 :=
  ⟨by decide, by decide, by decide,
   (c5_create_failure_retry envFail [] ("acme/wallet") acmeIssue (by decide)
     (by decide) (by decide) (by decide)).1⟩

/-- C6: in a run that passes the rate-limit gate, an issue matching no
configured keyword has its identifier recorded in the processed set, and
no submission to the target tracker is ever attempted for it. -/
theorem c6_relevance_gate (env : Env) (p : List String) (repo : String)
    (issue : Issue)
    (hrate : 100 ≤ env.rateRemaining)
    (hr : repo ∈ env.monitored_repos)
    (hi : issue ∈ env.recentIssues repo)
    (hm : matches_criteria env.keywords issue = false) :
    mkIssueId repo issue.number ∈ (monitor_repositories env p).1 ∧
    (∀ (r' : String) (ok : Bool),
      Event.createAttempt r' issue ok ∉ (monitor_repositories env p).2) := by
  have hlt : ¬ env.rateRemaining < 100 := by omega
  constructor
  · unfold monitor_repositories
    rw [if_neg hlt]
    exact runRepos_reach env repo issue hm env.monitored_repos p [] hr hi
  · intro r' ok hmem
    unfold monitor_repositories at hmem
    rw [if_neg hlt] at hmem
    have htrue := runRepos_trace_create env env.monitored_repos p []
      (fun r'' i'' ok'' h => absurd h (List.not_mem_nil _)) r' issue ok hmem
    simp [hm] at htrue

/-- C6 (witness). -/
theorem c6_relevance_gate_witness :
    100 ≤ envFail.rateRemaining ∧
    "acme/wallet" ∈ envFail.monitored_repos ∧
    boringIssue ∈ envFail.recentIssues ("acme/wallet") ∧
    matches_criteria envFail.keywords boringIssue = false ∧
    mkIssueId ("acme/wallet") boringIssue.number ∈ (monitor_repositories envFail []).1 :=
  ⟨by decide, by decide, by decide, by decide,
   (c6_relevance_gate envFail [] ("acme/wallet") boringIssue (by decide) (by decide)
     (by decide) (by decide)).1⟩

/-- C9: the processed set only grows: every step of the monitoring loop
and of the search loop preserves its members, and both full runs return a
superset of the loaded set. -/
theorem c9_processed_monotone :
    (∀ (env : Env) (repo : String) (p : List String) (i : Issue) (x : String),
      x ∈ p → x ∈ (processIssue env repo p i).1) ∧
    (∀ (env : Env) (acc : List String × List Event) (i : Issue) (x : String),
      x ∈ acc.1 → x ∈ (searchStep env acc i).1) ∧
    (∀ (env : Env) (p : List String) (x : String),
      x ∈ p → x ∈ (monitor_repositories env p).1) ∧
    (∀ (env : Env) (p : List String) (x : String),
      x ∈ p → x ∈ (search_github env p).1) := by
  refine ⟨fun env repo p i x hx => processIssue_mono env repo p i x hx,
    fun env acc i x hx => searchStep_mono env acc i x hx, ?_, ?_⟩
  · intro env p x hx
    unfold monitor_repositories
    split
    · exact hx
    · exact runRepos_mono env env.monitored_repos p [] x hx
  · intro env p x hx
    unfold search_github
    split
    · exact hx
    · exact search_foldl_mono env _ _ x hx

/-- C9 (witness). -/
theorem c9_processed_monotone_witness :
    "seed#1" ∈ (["seed#1"] : List String) ∧
    "seed#1" ∈ (monitor_repositories envFail ["seed#1"]).1 ∧
    "seed#1" ∈ (search_github envFail ["seed#1"]).1 :=
  ⟨by decide,
   c9_processed_monotone.2.2.1 envFail ["seed#1"] ("seed#1") (by decide),
   c9_processed_monotone.2.2.2 envFail ["seed#1"] ("seed#1") (by decide)⟩

/-- C10: a successfully submitted issue has its identifier recorded
before the owner-notification comment is attempted, the recorded state and
trace are the same whether the comment call succeeds or fails, and a later
run short-circuits on the recorded identifier without retrying the
notification. -/
theorem c10_mark_before_notify (env : Env) (repo : String) (p : List String)
    (issue : Issue) (n : Nat)
    (hp : mkIssueId repo issue.number ∉ p)
    (hm : matches_criteria env.keywords issue = true)
    (hc : env.createResult repo issue = some n) :
    processIssue env repo p issue =
      (mkIssueId repo issue.number :: p,
       [Event.createAttempt repo issue true,
        Event.markedProcessed (mkIssueId repo issue.number),
        Event.commentAttempt n (find_real_owner env.fetchCreator issue)
          (env.commentOk n (find_real_owner env.fetchCreator issue))]) ∧
    mkIssueId repo issue.number ∈ (processIssue env repo p issue).1 ∧
    (∀ p2 : List String, mkIssueId repo issue.number ∈ p2 →
      processIssue env repo p2 issue = (p2, [])) := by
  have hstep : processIssue env repo p issue =
      (mkIssueId repo issue.number :: p,
       [Event.createAttempt repo issue true,
        Event.markedProcessed (mkIssueId repo issue.number),
        Event.commentAttempt n (find_real_owner env.fetchCreator issue)
          (env.commentOk n (find_real_owner env.fetchCreator issue))]) := by
    simp [processIssue, hp, hm, hc]
  refine ⟨hstep, ?_, ?_⟩
  · rw [hstep]
    exact List.mem_cons_self _ _
  · intro p2 h2
    simp [processIssue, h2]

/-- C10 (witness). -/
theorem c10_mark_before_notify_witness :
    mkIssueId ("acme/wallet") acmeIssue.number ∉ ([] : List String) ∧
    matches_criteria envOk.keywords acmeIssue = true ∧
    envOk.createResult ("acme/wallet") acmeIssue = some 99 ∧
    mkIssueId ("acme/wallet") acmeIssue.number ∈
      (processIssue envOk ("acme/wallet") [] acmeIssue).1 :=
  ⟨by decide, by decide, by decide,
   (c10_mark_before_notify envOk ("acme/wallet") [] acmeIssue 99 (by decide)
     (by decide) (by decide)).2.1⟩
